import Mathlib

/-!
# Verification of the etcetera XDG strategies

Shallow embedding of `src/base_strategy/xdg.rs` and `src/app_strategy/xdg.rs`.

Paths are modelled as plain strings with Unix semantics (`Path::is_absolute`
is "begins with `/`", `Path::join` inserts a `/` separator when needed and an
absolute argument replaces the base).  The process environment is modelled as
a map from variable names to optional values, where a value is either a
Unicode string or a non-Unicode byte sequence (the latter makes
`std::env::var` fail with `VarError::NotUnicode`).
-/

namespace Etcetera

/-- A value held by an environment variable: either a Unicode string, or a
non-Unicode byte sequence whose bytes never reach this code because
`std::env::var` rejects it. -/
inductive EnvVal where
  | unicode (s : String)
  | nonUnicode
  deriving DecidableEq

/-- The process environment: each variable name is unset (`none`) or set. -/
def Env : Type := String → Option EnvVal

/-- `std::env::var(name).ok()`: `some s` exactly when the variable is set to
the Unicode string `s`; an unset variable and a non-Unicode value both give
`none` (the two `VarError` cases, discarded by `.ok()`). -/
def envVarOk (env : Env) (name : String) : Option String :=
  match env name with
  | some (EnvVal.unicode s) => some s
  | _ => none

/-- `Path::is_absolute` with Unix semantics: the path begins with `/`. -/
def isAbsolute (p : String) : Bool :=
  match p.data with
  | [] => false
  | c :: _ => c = '/'

/-- Whether the final character of the path is the separator `/`. -/
def endsWithSep (p : String) : Bool :=
  match p.data.getLast? with
  | some c => c = '/'
  | none => false

/-- `Path::join` (Unix): an absolute argument replaces the base; otherwise the
argument is appended to the base, inserting a `/` separator when the base is
non-empty and does not already end in one. -/
def pathJoin (self p : String) : String :=
  if isAbsolute p then p
  else if self.data.isEmpty then p
  else if endsWithSep self then self ++ p
  else self ++ "/" ++ p

/-- `str::split(':')` over the characters of a string: splitting an empty
string yields one empty piece, and each `:` starts a new piece. -/
def splitColonChars : List Char → List (List Char)
  | [] => [[]]
  | c :: rest =>
    if c = ':' then [] :: splitColonChars rest
    else
      match splitColonChars rest with
      | [] => [[c]]
      | piece :: pieces => (c :: piece) :: pieces

/-- `value.split(':').map(PathBuf::from).collect()`: the colon-separated
pieces of the string, each kept verbatim as a path. -/
def splitColon (s : String) : List String :=
  (splitColonChars s.data).map (fun l => { data := l })

/-- Modelled from the spec: the single error kind of the out-of-scope
home-directory primitive `crate::home_dir` (`crate::HomeDirError`, "cannot
determine home directory"), which is not under `src/`. -/
inductive HomeDirError where
  | cannotDetermine
  deriving DecidableEq

/-- Outcome of a Rust computation that may hit the panicking branch of
`Option::unwrap`. -/
inductive PanicOr (α : Type) where
  | panicked
  | ok (a : α)
  deriving DecidableEq

/-- `Option::unwrap`: the value when present, otherwise the panicking
branch. -/
def optionUnwrap {α : Type} : Option α → PanicOr α
  | some a => PanicOr.ok a
  | none => PanicOr.panicked

namespace base_strategy

/-- `base_strategy::Xdg`: holds the home directory resolved at
construction. -/
structure Xdg where
  home_dir : String
  deriving DecidableEq

namespace Xdg

/-- `Xdg::env_var_or_none`: read the variable; keep the value only when the
lookup succeeds and the value parses as an absolute path. -/
def env_var_or_none (env : Env) (env_var : String) : Option String :=
  (envVarOk env env_var).bind (fun path =>
    if isAbsolute path then some path else none)

/-- `Xdg::env_var_or_default`: the absolute override when present, otherwise
the home directory joined with the given default. -/
def env_var_or_default (self : Xdg) (env : Env) (env_var : String)
    (default : String) : String :=
  (env_var_or_none env env_var).getD (pathJoin self.home_dir default)

/-- `Xdg::bin_dir`. -/
def bin_dir (self : Xdg) (env : Env) : String :=
  env_var_or_default self env "XDG_BIN_HOME" ".local/bin"

/-- `Xdg::data_dirs` (associated function): colon-split value of
`XDG_DATA_DIRS`, with a default used when `std::env::var` fails. -/
def data_dirs (env : Env) : List String :=
  splitColon ((envVarOk env "XDG_DATA_DIRS").getD "/usr/local/share/:/usr/share/")

/-- `Xdg::config_dirs` (associated function): colon-split value of
`XDG_CONFIG_DIRS`, with a default used when `std::env::var` fails. -/
def config_dirs (env : Env) : List String :=
  splitColon ((envVarOk env "XDG_CONFIG_DIRS").getD "/etc/xdg")

/-- `<Xdg as BaseStrategy>::new`: resolves the home directory via the
`crate::home_dir` primitive, whose outcome is the explicit argument here,
propagating its error with `?`. -/
def new (home : Except HomeDirError String) : Except HomeDirError Xdg :=
  home.map (fun h => { home_dir := h })

/-- `Xdg::config_dir`. -/
def config_dir (self : Xdg) (env : Env) : String :=
  env_var_or_default self env "XDG_CONFIG_HOME" ".config/"

/-- `Xdg::data_dir`. -/
def data_dir (self : Xdg) (env : Env) : String :=
  env_var_or_default self env "XDG_DATA_HOME" ".local/share/"

/-- `Xdg::cache_dir`. -/
def cache_dir (self : Xdg) (env : Env) : String :=
  env_var_or_default self env "XDG_CACHE_HOME" ".cache/"

/-- `Xdg::state_dir`. -/
def state_dir (self : Xdg) (env : Env) : Option String :=
  some (env_var_or_default self env "XDG_STATE_HOME" ".local/state/")

/-- `Xdg::runtime_dir`: no default — `env_var_or_none` only. -/
def runtime_dir (_self : Xdg) (env : Env) : Option String :=
  env_var_or_none env "XDG_RUNTIME_DIR"

end Xdg

end base_strategy

namespace app_strategy

/-- `app_strategy::Xdg`: a base strategy plus the application's
`unixy_name` segment. -/
structure Xdg where
  base_strategy : Etcetera.base_strategy.Xdg
  unixy_name : String
  deriving DecidableEq

namespace Xdg

/-- `<Xdg as AppStrategy>::new`: constructs the base strategy (propagating
its failure with `?`) and stores the segment `args.unixy_name()`.  The
`AppStrategyArgs` type and its `unixy_name` derivation live outside `src/`;
per the spec the derived segment is an opaque pre-validated string, passed
here as `args_unixy_name`. -/
def new (home : Except HomeDirError String) (args_unixy_name : String) :
    Except HomeDirError Xdg :=
  (base_strategy.Xdg.new home).map
    (fun b => { base_strategy := b, unixy_name := args_unixy_name })

/-- `Xdg::home_dir`: the base strategy's home directory, unjoined. -/
def home_dir (self : Xdg) : String :=
  self.base_strategy.home_dir

/-- `Xdg::bin_dir`: pass-through to the base strategy. -/
def bin_dir (self : Xdg) (env : Env) : String :=
  self.base_strategy.bin_dir env

/-- `Xdg::data_dirs`: pass-through to the base strategy. -/
def data_dirs (env : Env) : List String :=
  base_strategy.Xdg.data_dirs env

/-- `Xdg::config_dirs`: pass-through to the base strategy. -/
def config_dirs (env : Env) : List String :=
  base_strategy.Xdg.config_dirs env

/-- `Xdg::config_dir`: base result joined with `unixy_name`. -/
def config_dir (self : Xdg) (env : Env) : String :=
  pathJoin (self.base_strategy.config_dir env) self.unixy_name

/-- `Xdg::data_dir`: base result joined with `unixy_name`. -/
def data_dir (self : Xdg) (env : Env) : String :=
  pathJoin (self.base_strategy.data_dir env) self.unixy_name

/-- `Xdg::cache_dir`: base result joined with `unixy_name`. -/
def cache_dir (self : Xdg) (env : Env) : String :=
  pathJoin (self.base_strategy.cache_dir env) self.unixy_name

/-- `Xdg::state_dir`:
`Some(self.base_strategy.state_dir().unwrap().join(&self.unixy_name))`;
the `unwrap` is modelled explicitly, so a `None` from the base would
surface as `PanicOr.panicked`. -/
def state_dir (self : Xdg) (env : Env) : PanicOr (Option String) :=
  match optionUnwrap (self.base_strategy.state_dir env) with
  | PanicOr.panicked => PanicOr.panicked
  | PanicOr.ok p => PanicOr.ok (some (pathJoin p self.unixy_name))

/-- `Xdg::runtime_dir`: joins `unixy_name` under `Option::map`. -/
def runtime_dir (self : Xdg) (env : Env) : Option String :=
  (self.base_strategy.runtime_dir env).map
    (fun runtime_dir => pathJoin runtime_dir self.unixy_name)

end Xdg

end app_strategy

/-! Concrete environments used by the witnesses. -/

/-- The empty environment: every variable unset. -/
def envEmpty : Env := fun _ => none

/-- An environment with exactly one variable set to a Unicode string. -/
def envSet1 (name v : String) : Env :=
  fun n => if n = name then some (EnvVal.unicode v) else none

/-- An environment with exactly one variable set to a non-Unicode value. -/
def envBad1 (name : String) : Env :=
  fun n => if n = name then some EnvVal.nonUnicode else none

/-! Helper lemmas about `env_var_or_none` and `env_var_or_default`. -/

/-- When the variable holds a Unicode value, `env_var_or_none` keeps it
exactly when it is absolute. -/
theorem env_var_or_none_of_unicode (env : Env) (env_var v : String)
    (h : env env_var = some (EnvVal.unicode v)) :
    base_strategy.Xdg.env_var_or_none env env_var =
      if isAbsolute v then some v else none := by
  simp [base_strategy.Xdg.env_var_or_none, envVarOk, h]

/-- When the lookup fails (variable unset or non-Unicode),
`env_var_or_none` is `none`. -/
theorem env_var_or_none_of_fail (env : Env) (env_var : String)
    (h : env env_var = none ∨ env env_var = some EnvVal.nonUnicode) :
    base_strategy.Xdg.env_var_or_none env env_var = none := by
  rcases h with h | h <;> simp [base_strategy.Xdg.env_var_or_none, envVarOk, h]

/-- An absolute Unicode override is returned unaltered by
`env_var_or_default`. -/
theorem env_var_or_default_of_abs (self : base_strategy.Xdg) (env : Env)
    (env_var default v : String) (h : env env_var = some (EnvVal.unicode v))
    (ha : isAbsolute v = true) :
    self.env_var_or_default env env_var default = v := by
  simp [base_strategy.Xdg.env_var_or_default,
    env_var_or_none_of_unicode env env_var v h, ha]

/-- When the variable is unset, non-Unicode, or a relative path,
`env_var_or_default` falls back to the home directory joined with the
default. -/
theorem env_var_or_default_of_invalid (self : base_strategy.Xdg) (env : Env)
    (env_var default : String)
    (h : env env_var = none ∨ env env_var = some EnvVal.nonUnicode ∨
      ∃ v, env env_var = some (EnvVal.unicode v) ∧ isAbsolute v = false) :
    self.env_var_or_default env env_var default =
      pathJoin self.home_dir default := by
  rcases h with h | h | ⟨v, h, ha⟩
  · simp [base_strategy.Xdg.env_var_or_default,
      env_var_or_none_of_fail env env_var (Or.inl h)]
  · simp [base_strategy.Xdg.env_var_or_default,
      env_var_or_none_of_fail env env_var (Or.inr h)]
  · simp [base_strategy.Xdg.env_var_or_default,
      env_var_or_none_of_unicode env env_var v h, ha]

/-- The three resolution cases of `env_var_or_default` for one variable:
absolute override kept, relative override discarded, unset variable
defaulted. -/
theorem env_var_or_default_cases (self : base_strategy.Xdg) (env : Env)
    (env_var default : String) :
    (∀ v, env env_var = some (EnvVal.unicode v) → isAbsolute v = true →
      self.env_var_or_default env env_var default = v) ∧
    (∀ v, env env_var = some (EnvVal.unicode v) → isAbsolute v = false →
      self.env_var_or_default env env_var default =
        pathJoin self.home_dir default) ∧
    (env env_var = none →
      self.env_var_or_default env env_var default =
        pathJoin self.home_dir default) :=
  ⟨fun v h ha => env_var_or_default_of_abs self env env_var default v h ha,
   fun v h ha => env_var_or_default_of_invalid self env env_var default
     (Or.inr (Or.inr ⟨v, h, ha⟩)),
   fun h => env_var_or_default_of_invalid self env env_var default (Or.inl h)⟩

/-- Claim C1: for each of the five single-value override variables
(`XDG_CONFIG_HOME`, `XDG_DATA_HOME`, `XDG_CACHE_HOME`, `XDG_STATE_HOME`,
`XDG_BIN_HOME`) and every environment: an absolute override is returned
exactly by the corresponding base-strategy accessor; an unset variable or a
relative override makes the accessor return the home directory joined with
that accessor's fixed default (`.config/`, `.local/share/`, `.cache/`,
`.local/state/`, `.local/bin`), with no error in any case. -/
theorem claim_C1_single_overrides (self : base_strategy.Xdg) (env : Env) :
    ((∀ v, env "XDG_CONFIG_HOME" = some (EnvVal.unicode v) →
        isAbsolute v = true → self.config_dir env = v) ∧
      (∀ v, env "XDG_CONFIG_HOME" = some (EnvVal.unicode v) →
        isAbsolute v = false →
        self.config_dir env = pathJoin self.home_dir ".config/") ∧
      (env "XDG_CONFIG_HOME" = none →
        self.config_dir env = pathJoin self.home_dir ".config/")) ∧
    ((∀ v, env "XDG_DATA_HOME" = some (EnvVal.unicode v) →
        isAbsolute v = true → self.data_dir env = v) ∧
      (∀ v, env "XDG_DATA_HOME" = some (EnvVal.unicode v) →
        isAbsolute v = false →
        self.data_dir env = pathJoin self.home_dir ".local/share/") ∧
      (env "XDG_DATA_HOME" = none →
        self.data_dir env = pathJoin self.home_dir ".local/share/")) ∧
    ((∀ v, env "XDG_CACHE_HOME" = some (EnvVal.unicode v) →
        isAbsolute v = true → self.cache_dir env = v) ∧
      (∀ v, env "XDG_CACHE_HOME" = some (EnvVal.unicode v) →
        isAbsolute v = false →
        self.cache_dir env = pathJoin self.home_dir ".cache/") ∧
      (env "XDG_CACHE_HOME" = none →
        self.cache_dir env = pathJoin self.home_dir ".cache/")) ∧
    ((∀ v, env "XDG_STATE_HOME" = some (EnvVal.unicode v) →
        isAbsolute v = true → self.state_dir env = some v) ∧
      (∀ v, env "XDG_STATE_HOME" = some (EnvVal.unicode v) →
        isAbsolute v = false →
        self.state_dir env = some (pathJoin self.home_dir ".local/state/")) ∧
      (env "XDG_STATE_HOME" = none →
        self.state_dir env = some (pathJoin self.home_dir ".local/state/"))) ∧
    ((∀ v, env "XDG_BIN_HOME" = some (EnvVal.unicode v) →
        isAbsolute v = true → self.bin_dir env = v) ∧
      (∀ v, env "XDG_BIN_HOME" = some (EnvVal.unicode v) →
        isAbsolute v = false →
        self.bin_dir env = pathJoin self.home_dir ".local/bin") ∧
      (env "XDG_BIN_HOME" = none →
        self.bin_dir env = pathJoin self.home_dir ".local/bin")) := by
  refine ⟨env_var_or_default_cases self env "XDG_CONFIG_HOME" ".config/",
    env_var_or_default_cases self env "XDG_DATA_HOME" ".local/share/",
    env_var_or_default_cases self env "XDG_CACHE_HOME" ".cache/",
    ?_,
    env_var_or_default_cases self env "XDG_BIN_HOME" ".local/bin"⟩
  obtain ⟨h1, h2, h3⟩ :=
    env_var_or_default_cases self env "XDG_STATE_HOME" ".local/state/"
  exact ⟨fun v h ha => congrArg some (h1 v h ha),
    fun v h ha => congrArg some (h2 v h ha),
    fun h => congrArg some (h3 h)⟩

/-- Witness for C1: concrete instantiations covering, for every one of the
five variables, the absolute-override, relative-override and unset cases,
with the home directory `/home/u`. -/
theorem claim_C1_single_overrides_witness :
    base_strategy.Xdg.config_dir ⟨"/home/u"⟩
      (envSet1 "XDG_CONFIG_HOME" "/etc/myconf") = "/etc/myconf" ∧
    base_strategy.Xdg.config_dir ⟨"/home/u"⟩
      (envSet1 "XDG_CONFIG_HOME" "rel/cfg") = "/home/u/.config/" ∧
    base_strategy.Xdg.config_dir ⟨"/home/u"⟩ envEmpty = "/home/u/.config/" ∧
    base_strategy.Xdg.data_dir ⟨"/home/u"⟩
      (envSet1 "XDG_DATA_HOME" "/d") = "/d" ∧
    base_strategy.Xdg.data_dir ⟨"/home/u"⟩
      (envSet1 "XDG_DATA_HOME" "rel/d") = "/home/u/.local/share/" ∧
    base_strategy.Xdg.data_dir ⟨"/home/u"⟩ envEmpty = "/home/u/.local/share/" ∧
    base_strategy.Xdg.cache_dir ⟨"/home/u"⟩
      (envSet1 "XDG_CACHE_HOME" "/c") = "/c" ∧
    base_strategy.Xdg.cache_dir ⟨"/home/u"⟩
      (envSet1 "XDG_CACHE_HOME" "rel/c") = "/home/u/.cache/" ∧
    base_strategy.Xdg.cache_dir ⟨"/home/u"⟩ envEmpty = "/home/u/.cache/" ∧
    base_strategy.Xdg.state_dir ⟨"/home/u"⟩
      (envSet1 "XDG_STATE_HOME" "/s") = some "/s" ∧
    base_strategy.Xdg.state_dir ⟨"/home/u"⟩
      (envSet1 "XDG_STATE_HOME" "relative/path") =
      some "/home/u/.local/state/" ∧
    base_strategy.Xdg.state_dir ⟨"/home/u"⟩ envEmpty =
      some "/home/u/.local/state/" ∧
    base_strategy.Xdg.bin_dir ⟨"/home/u"⟩
      (envSet1 "XDG_BIN_HOME" "/b") = "/b" ∧
    base_strategy.Xdg.bin_dir ⟨"/home/u"⟩
      (envSet1 "XDG_BIN_HOME" "rel/b") = "/home/u/.local/bin" ∧
    base_strategy.Xdg.bin_dir ⟨"/home/u"⟩ envEmpty = "/home/u/.local/bin" :=
  ⟨(claim_C1_single_overrides ⟨"/home/u"⟩ _).1.1 "/etc/myconf"
      (by decide) (by decide),
   ((claim_C1_single_overrides ⟨"/home/u"⟩ _).1.2.1 "rel/cfg"
      (by decide) (by decide)).trans (by decide),
   ((claim_C1_single_overrides ⟨"/home/u"⟩ envEmpty).1.2.2
      (by decide)).trans (by decide),
   (claim_C1_single_overrides ⟨"/home/u"⟩ _).2.1.1 "/d" (by decide) (by decide),
   ((claim_C1_single_overrides ⟨"/home/u"⟩ _).2.1.2.1 "rel/d"
      (by decide) (by decide)).trans (by decide),
   ((claim_C1_single_overrides ⟨"/home/u"⟩ envEmpty).2.1.2.2
      (by decide)).trans (by decide),
   (claim_C1_single_overrides ⟨"/home/u"⟩ _).2.2.1.1 "/c"
      (by decide) (by decide),
   ((claim_C1_single_overrides ⟨"/home/u"⟩ _).2.2.1.2.1 "rel/c"
      (by decide) (by decide)).trans (by decide),
   ((claim_C1_single_overrides ⟨"/home/u"⟩ envEmpty).2.2.1.2.2
      (by decide)).trans (by decide),
   (claim_C1_single_overrides ⟨"/home/u"⟩ _).2.2.2.1.1 "/s"
      (by decide) (by decide),
   ((claim_C1_single_overrides ⟨"/home/u"⟩ _).2.2.2.1.2.1 "relative/path"
      (by decide) (by decide)).trans (by decide),
   ((claim_C1_single_overrides ⟨"/home/u"⟩ envEmpty).2.2.2.1.2.2
      (by decide)).trans (by decide),
   (claim_C1_single_overrides ⟨"/home/u"⟩ _).2.2.2.2.1 "/b"
      (by decide) (by decide),
   ((claim_C1_single_overrides ⟨"/home/u"⟩ _).2.2.2.2.2.1 "rel/b"
      (by decide) (by decide)).trans (by decide),
   ((claim_C1_single_overrides ⟨"/home/u"⟩ envEmpty).2.2.2.2.2.2
      (by decide)).trans (by decide)⟩

/-- Claim C2: `data_dirs` and `config_dirs` return the default lists
`["/usr/local/share/", "/usr/share/"]` and `["/etc/xdg"]` when the variable
is entirely unset; when the variable is set to any string they return the
colon-split list of that string verbatim, with no absolute-path validation;
in particular an empty string yields a one-element list holding the empty
path. -/
theorem claim_C2_search_path_lists (env : Env) :
    (env "XDG_DATA_DIRS" = none →
      base_strategy.Xdg.data_dirs env = ["/usr/local/share/", "/usr/share/"]) ∧
    (∀ s, env "XDG_DATA_DIRS" = some (EnvVal.unicode s) →
      base_strategy.Xdg.data_dirs env = splitColon s) ∧
    (env "XDG_DATA_DIRS" = some (EnvVal.unicode "") →
      base_strategy.Xdg.data_dirs env = [""]) ∧
    (env "XDG_CONFIG_DIRS" = none →
      base_strategy.Xdg.config_dirs env = ["/etc/xdg"]) ∧
    (∀ s, env "XDG_CONFIG_DIRS" = some (EnvVal.unicode s) →
      base_strategy.Xdg.config_dirs env = splitColon s) ∧
    (env "XDG_CONFIG_DIRS" = some (EnvVal.unicode "") →
      base_strategy.Xdg.config_dirs env = [""]) := by
  refine ⟨fun h => ?_, fun s h => ?_, fun h => ?_, fun h => ?_,
    fun s h => ?_, fun h => ?_⟩
  · rw [base_strategy.Xdg.data_dirs, envVarOk, h]; decide
  · rw [base_strategy.Xdg.data_dirs, envVarOk, h]
    rfl
  · rw [base_strategy.Xdg.data_dirs, envVarOk, h]; decide
  · rw [base_strategy.Xdg.config_dirs, envVarOk, h]; decide
  · rw [base_strategy.Xdg.config_dirs, envVarOk, h]
    rfl
  · rw [base_strategy.Xdg.config_dirs, envVarOk, h]; decide

/-- Witness for C2: the default lists with everything unset; verbatim
colon-splitting of a list holding a relative segment; and the one-element
empty-path list for an empty-string value. -/
theorem claim_C2_search_path_lists_witness :
    base_strategy.Xdg.data_dirs envEmpty =
      ["/usr/local/share/", "/usr/share/"] ∧
    base_strategy.Xdg.data_dirs (envSet1 "XDG_DATA_DIRS" "rel:/abs") =
      ["rel", "/abs"] ∧
    base_strategy.Xdg.data_dirs (envSet1 "XDG_DATA_DIRS" "") = [""] ∧
    base_strategy.Xdg.config_dirs envEmpty = ["/etc/xdg"] ∧
    base_strategy.Xdg.config_dirs (envSet1 "XDG_CONFIG_DIRS" "relative") =
      ["relative"] ∧
    base_strategy.Xdg.config_dirs (envSet1 "XDG_CONFIG_DIRS" "") = [""] :=
  ⟨(claim_C2_search_path_lists envEmpty).1 (by decide),
   ((claim_C2_search_path_lists _).2.1 "rel:/abs" (by decide)).trans (by decide),
   (claim_C2_search_path_lists _).2.2.1 (by decide),
   (claim_C2_search_path_lists envEmpty).2.2.2.1 (by decide),
   ((claim_C2_search_path_lists _).2.2.2.2.1 "relative"
      (by decide)).trans (by decide),
   (claim_C2_search_path_lists _).2.2.2.2.2 (by decide)⟩

/-- Claim C3: the base strategy's `runtime_dir` returns `none` when
`XDG_RUNTIME_DIR` is unset, `none` when it is set to a relative path, and
exactly the override value when it is set to an absolute path; it never
returns a home-relative or any other default. -/
theorem claim_C3_runtime_dir_no_default (self : base_strategy.Xdg)
    (env : Env) :
    (env "XDG_RUNTIME_DIR" = none → self.runtime_dir env = none) ∧
    (∀ v, env "XDG_RUNTIME_DIR" = some (EnvVal.unicode v) →
      isAbsolute v = false → self.runtime_dir env = none) ∧
    (∀ v, env "XDG_RUNTIME_DIR" = some (EnvVal.unicode v) →
      isAbsolute v = true → self.runtime_dir env = some v) ∧
    (self.runtime_dir env = none ∨
      ∃ v, env "XDG_RUNTIME_DIR" = some (EnvVal.unicode v) ∧
        isAbsolute v = true ∧ self.runtime_dir env = some v) := by
  refine ⟨fun h => ?_, fun v h ha => ?_, fun v h ha => ?_, ?_⟩
  · exact env_var_or_none_of_fail env "XDG_RUNTIME_DIR" (Or.inl h)
  · show base_strategy.Xdg.env_var_or_none env "XDG_RUNTIME_DIR" = none
    rw [env_var_or_none_of_unicode env "XDG_RUNTIME_DIR" v h, ha]
    rfl
  · show base_strategy.Xdg.env_var_or_none env "XDG_RUNTIME_DIR" = some v
    rw [env_var_or_none_of_unicode env "XDG_RUNTIME_DIR" v h, ha]
    rfl
  · cases hE : env "XDG_RUNTIME_DIR" with
    | none =>
      exact Or.inl (env_var_or_none_of_fail env "XDG_RUNTIME_DIR" (Or.inl hE))
    | some val =>
      cases val with
      | nonUnicode =>
        exact Or.inl
          (env_var_or_none_of_fail env "XDG_RUNTIME_DIR" (Or.inr hE))
      | unicode s =>
        cases habs : isAbsolute s with
        | false =>
          refine Or.inl ?_
          show base_strategy.Xdg.env_var_or_none env "XDG_RUNTIME_DIR" = none
          rw [env_var_or_none_of_unicode env "XDG_RUNTIME_DIR" s hE, habs]
          rfl
        | true =>
          refine Or.inr ⟨s, rfl, habs, ?_⟩
          show base_strategy.Xdg.env_var_or_none env "XDG_RUNTIME_DIR" = some s
          rw [env_var_or_none_of_unicode env "XDG_RUNTIME_DIR" s hE, habs]
          rfl

/-- Witness for C3: with home `/home/u`, `runtime_dir` is `none` when the
variable is unset, `none` on a relative override `qux/`, and exactly
`/run/user/1000` on that absolute override. -/
theorem claim_C3_runtime_dir_no_default_witness :
    base_strategy.Xdg.runtime_dir ⟨"/home/u"⟩ envEmpty = none ∧
    base_strategy.Xdg.runtime_dir ⟨"/home/u"⟩
      (envSet1 "XDG_RUNTIME_DIR" "qux/") = none ∧
    base_strategy.Xdg.runtime_dir ⟨"/home/u"⟩
      (envSet1 "XDG_RUNTIME_DIR" "/run/user/1000") = some "/run/user/1000" :=
  ⟨(claim_C3_runtime_dir_no_default ⟨"/home/u"⟩ envEmpty).1 (by decide),
   (claim_C3_runtime_dir_no_default ⟨"/home/u"⟩ _).2.1 "qux/"
      (by decide) (by decide),
   (claim_C3_runtime_dir_no_default ⟨"/home/u"⟩ _).2.2.1 "/run/user/1000"
      (by decide) (by decide)⟩

/-- Claim C4: for every environment, the base strategy's `state_dir` is
always `some` value, and the application strategy's `state_dir` always
succeeds with `some` of the base state directory joined with
`unixy_name`. -/
theorem claim_C4_state_dir_always_present (self : base_strategy.Xdg)
    (a : app_strategy.Xdg) (env : Env) :
    (∃ p, self.state_dir env = some p) ∧
    (∃ q, a.base_strategy.state_dir env = some q ∧
      a.state_dir env = PanicOr.ok (some (pathJoin q a.unixy_name))) :=
  ⟨⟨self.env_var_or_default env "XDG_STATE_HOME" ".local/state/", rfl⟩,
   ⟨a.base_strategy.env_var_or_default env "XDG_STATE_HOME" ".local/state/",
     rfl, rfl⟩⟩

/-- Claim C5: every application-strategy accessor among `config_dir`,
`data_dir`, `cache_dir` and `state_dir` (when present) equals the
corresponding base-strategy result joined with `unixy_name`, and
`runtime_dir` joins `unixy_name` exactly when the base `runtime_dir` is
`some`, propagating `none` otherwise. -/
theorem claim_C5_app_joins_base (a : app_strategy.Xdg) (env : Env) :
    a.config_dir env = pathJoin (a.base_strategy.config_dir env) a.unixy_name ∧
    a.data_dir env = pathJoin (a.base_strategy.data_dir env) a.unixy_name ∧
    a.cache_dir env = pathJoin (a.base_strategy.cache_dir env) a.unixy_name ∧
    (∀ p, a.base_strategy.state_dir env = some p →
      a.state_dir env = PanicOr.ok (some (pathJoin p a.unixy_name))) ∧
    (a.base_strategy.runtime_dir env = none → a.runtime_dir env = none) ∧
    (∀ p, a.base_strategy.runtime_dir env = some p →
      a.runtime_dir env = some (pathJoin p a.unixy_name)) := by
  refine ⟨rfl, rfl, rfl, fun p h => ?_, fun h => ?_, fun p h => ?_⟩
  · rw [app_strategy.Xdg.state_dir, h]
    rfl
  · rw [app_strategy.Xdg.runtime_dir, h]
    rfl
  · rw [app_strategy.Xdg.runtime_dir, h]
    rfl

/-- Witness for C5: the instance with home `/home/u` and segment
`frobnicator-plus`, exercised on the empty environment (state joined,
runtime absent) and on an environment with an absolute runtime override
(runtime joined). -/
theorem claim_C5_app_joins_base_witness :
    app_strategy.Xdg.state_dir ⟨⟨"/home/u"⟩, "frobnicator-plus"⟩ envEmpty =
      PanicOr.ok (some "/home/u/.local/state/frobnicator-plus") ∧
    app_strategy.Xdg.runtime_dir ⟨⟨"/home/u"⟩, "frobnicator-plus"⟩ envEmpty =
      none ∧
    app_strategy.Xdg.runtime_dir ⟨⟨"/home/u"⟩, "frobnicator-plus"⟩
      (envSet1 "XDG_RUNTIME_DIR" "/run/u") = some "/run/u/frobnicator-plus" :=
  ⟨((claim_C5_app_joins_base ⟨⟨"/home/u"⟩, "frobnicator-plus"⟩
      envEmpty).2.2.2.1 "/home/u/.local/state/" (by decide)).trans (by decide),
   (claim_C5_app_joins_base ⟨⟨"/home/u"⟩, "frobnicator-plus"⟩
      envEmpty).2.2.2.2.1 (by decide),
   ((claim_C5_app_joins_base ⟨⟨"/home/u"⟩, "frobnicator-plus"⟩
      _).2.2.2.2.2 "/run/u" (by decide)).trans (by decide)⟩

/-- Claim C6: the application strategy's `home_dir` is exactly the wrapped
base strategy's `home_dir`, with no `unixy_name` segment appended. -/
theorem claim_C6_home_dir_unjoined (a : app_strategy.Xdg) :
    a.home_dir = a.base_strategy.home_dir :=
  rfl

/-- Claim C7: the application strategy's `bin_dir`, `data_dirs` and
`config_dirs` are pass-throughs returning exactly the base-strategy
results, with no application segment appended. -/
theorem claim_C7_pass_through (a : app_strategy.Xdg) (env : Env) :
    a.bin_dir env = a.base_strategy.bin_dir env ∧
    app_strategy.Xdg.data_dirs env = base_strategy.Xdg.data_dirs env ∧
    app_strategy.Xdg.config_dirs env = base_strategy.Xdg.config_dirs env :=
  ⟨rfl, rfl, rfl⟩

/-- Claim C8: the only failure mode is home-directory resolution at
construction: the base constructor fails exactly when the home primitive
fails and returns that error unchanged, the application constructor
propagates the same error producing no instance, both succeed whenever the
primitive succeeds, and no accessor on a constructed instance can fail (the
one accessor with a failure branch, the application `state_dir` with its
`unwrap`, never reaches it). -/
theorem claim_C8_single_failure_mode (home : Except HomeDirError String)
    (u : String) (env : Env) :
    (∀ e, home = Except.error e →
      base_strategy.Xdg.new home = Except.error e ∧
      app_strategy.Xdg.new home u = Except.error e) ∧
    (∀ h, home = Except.ok h →
      base_strategy.Xdg.new home = Except.ok { home_dir := h } ∧
      app_strategy.Xdg.new home u =
        Except.ok { base_strategy := { home_dir := h }, unixy_name := u }) ∧
    (∀ a : app_strategy.Xdg, a.state_dir env ≠ PanicOr.panicked) := by
  refine ⟨fun e he => ?_, fun h hh => ?_, fun a hcontra => ?_⟩
  · subst he
    exact ⟨rfl, rfl⟩
  · subst hh
    exact ⟨rfl, rfl⟩
  · rw [app_strategy.Xdg.state_dir, base_strategy.Xdg.state_dir,
      optionUnwrap] at hcontra
    exact PanicOr.noConfusion hcontra

/-- Witness for C8: the error `cannotDetermine` propagates unchanged
through both constructors; a successful resolution of `/home/u` produces
both instances; and a concrete instance's `state_dir` does not hit its
panicking branch. -/
theorem claim_C8_single_failure_mode_witness :
    (base_strategy.Xdg.new (Except.error HomeDirError.cannotDetermine) =
        Except.error HomeDirError.cannotDetermine ∧
      app_strategy.Xdg.new (Except.error HomeDirError.cannotDetermine) "app" =
        Except.error HomeDirError.cannotDetermine) ∧
    (base_strategy.Xdg.new (Except.ok "/home/u") =
        Except.ok { home_dir := "/home/u" } ∧
      app_strategy.Xdg.new (Except.ok "/home/u") "app" =
        Except.ok { base_strategy := { home_dir := "/home/u" }, unixy_name := "app" }) ∧
    app_strategy.Xdg.state_dir ⟨⟨"/home/u"⟩, "app"⟩ envEmpty ≠
      PanicOr.panicked :=
  ⟨(claim_C8_single_failure_mode (Except.error HomeDirError.cannotDetermine)
      "app" envEmpty).1 HomeDirError.cannotDetermine rfl,
   (claim_C8_single_failure_mode (Except.ok "/home/u") "app" envEmpty).2.1
      "/home/u" rfl,
   (claim_C8_single_failure_mode (Except.ok "/home/u") "app" envEmpty).2.2
      ⟨⟨"/home/u"⟩, "app"⟩⟩

/-- Claim C9: the `unwrap` inside the application strategy's `state_dir`
never panics: for every instance and every environment the wrapped base
strategy's `state_dir` is `some`, so the panicking branch is
unreachable. -/
theorem claim_C9_state_dir_unwrap_safe (a : app_strategy.Xdg) (env : Env) :
    (a.base_strategy.state_dir env).isSome = true ∧
    a.state_dir env ≠ PanicOr.panicked := by
  refine ⟨rfl, fun hcontra => ?_⟩
  rw [app_strategy.Xdg.state_dir, base_strategy.Xdg.state_dir,
    optionUnwrap] at hcontra
  exact PanicOr.noConfusion hcontra

/-- Claim C10: for every single-value override variable, a lookup failure
(variable unset, or set to a non-Unicode value `std::env::var` cannot
return) is treated exactly like the unset case: the accessor falls back to
the spec default (and `runtime_dir` to `none`), with no panic and no
surfaced error. -/
theorem claim_C10_lookup_failure_as_unset (self : base_strategy.Xdg)
    (env : Env) :
    (env "XDG_CONFIG_HOME" = some EnvVal.nonUnicode ∨
        env "XDG_CONFIG_HOME" = none →
      self.config_dir env = pathJoin self.home_dir ".config/") ∧
    (env "XDG_DATA_HOME" = some EnvVal.nonUnicode ∨
        env "XDG_DATA_HOME" = none →
      self.data_dir env = pathJoin self.home_dir ".local/share/") ∧
    (env "XDG_CACHE_HOME" = some EnvVal.nonUnicode ∨
        env "XDG_CACHE_HOME" = none →
      self.cache_dir env = pathJoin self.home_dir ".cache/") ∧
    (env "XDG_STATE_HOME" = some EnvVal.nonUnicode ∨
        env "XDG_STATE_HOME" = none →
      self.state_dir env = some (pathJoin self.home_dir ".local/state/")) ∧
    (env "XDG_BIN_HOME" = some EnvVal.nonUnicode ∨
        env "XDG_BIN_HOME" = none →
      self.bin_dir env = pathJoin self.home_dir ".local/bin") ∧
    (env "XDG_RUNTIME_DIR" = some EnvVal.nonUnicode ∨
        env "XDG_RUNTIME_DIR" = none →
      self.runtime_dir env = none) := by
  refine ⟨fun h => ?_, fun h => ?_, fun h => ?_, fun h => ?_, fun h => ?_,
    fun h => ?_⟩
  · exact env_var_or_default_of_invalid self env "XDG_CONFIG_HOME" ".config/"
      (h.elim (fun hnu => Or.inr (Or.inl hnu)) Or.inl)
  · exact env_var_or_default_of_invalid self env "XDG_DATA_HOME"
      ".local/share/" (h.elim (fun hnu => Or.inr (Or.inl hnu)) Or.inl)
  · exact env_var_or_default_of_invalid self env "XDG_CACHE_HOME" ".cache/"
      (h.elim (fun hnu => Or.inr (Or.inl hnu)) Or.inl)
  · exact congrArg some (env_var_or_default_of_invalid self env
      "XDG_STATE_HOME" ".local/state/"
      (h.elim (fun hnu => Or.inr (Or.inl hnu)) Or.inl))
  · exact env_var_or_default_of_invalid self env "XDG_BIN_HOME" ".local/bin"
      (h.elim (fun hnu => Or.inr (Or.inl hnu)) Or.inl)
  · exact env_var_or_none_of_fail env "XDG_RUNTIME_DIR"
      (h.elim (fun hnu => Or.inr hnu) Or.inl)

/-- Witness for C10: with home `/home/u` and each variable in turn set to a
non-Unicode value, every accessor falls back to its default and
`runtime_dir` to `none`. -/
theorem claim_C10_lookup_failure_as_unset_witness :
    base_strategy.Xdg.config_dir ⟨"/home/u"⟩ (envBad1 "XDG_CONFIG_HOME") =
      "/home/u/.config/" ∧
    base_strategy.Xdg.data_dir ⟨"/home/u"⟩ (envBad1 "XDG_DATA_HOME") =
      "/home/u/.local/share/" ∧
    base_strategy.Xdg.cache_dir ⟨"/home/u"⟩ (envBad1 "XDG_CACHE_HOME") =
      "/home/u/.cache/" ∧
    base_strategy.Xdg.state_dir ⟨"/home/u"⟩ (envBad1 "XDG_STATE_HOME") =
      some "/home/u/.local/state/" ∧
    base_strategy.Xdg.bin_dir ⟨"/home/u"⟩ (envBad1 "XDG_BIN_HOME") =
      "/home/u/.local/bin" ∧
    base_strategy.Xdg.runtime_dir ⟨"/home/u"⟩ (envBad1 "XDG_RUNTIME_DIR") =
      none :=
  ⟨((claim_C10_lookup_failure_as_unset ⟨"/home/u"⟩ _).1
      (Or.inl (by decide))).trans (by decide),
   ((claim_C10_lookup_failure_as_unset ⟨"/home/u"⟩ _).2.1
      (Or.inl (by decide))).trans (by decide),
   ((claim_C10_lookup_failure_as_unset ⟨"/home/u"⟩ _).2.2.1
      (Or.inl (by decide))).trans (by decide),
   ((claim_C10_lookup_failure_as_unset ⟨"/home/u"⟩ _).2.2.2.1
      (Or.inl (by decide))).trans (by decide),
   ((claim_C10_lookup_failure_as_unset ⟨"/home/u"⟩ _).2.2.2.2.1
      (Or.inl (by decide))).trans (by decide),
   (claim_C10_lookup_failure_as_unset ⟨"/home/u"⟩ _).2.2.2.2.2
      (Or.inl (by decide))⟩

end Etcetera
